import Mathlib

/-!
Shallow embedding of the Magnum `Trade::DataChunk` binary chunk-header codec
(`src/Magnum/Trade/Data.cpp` together with the header declarations found in
`src/Magnum/Trade/imageconverter.cpp`).

Buffers are lists of byte values (`List Nat`, each entry a value below 256 in
any real memory image).  The codec exists in four platform variants
(32/64-bit x little/big-endian); a `Platform` value selects one, mirroring the
`sizeof(std::size_t)` and `CORRADE_TARGET_BIG_ENDIAN` compile-time choices.
-/

/-- One of the four platform variants the header codec is compiled for:
`is64` mirrors `sizeof(std::size_t) == 8`, `bigEndian` mirrors
`CORRADE_TARGET_BIG_ENDIAN`. -/
structure Platform where
  is64 : Bool
  bigEndian : Bool
  deriving DecidableEq

/-- Little-endian 64-bit platform. -/
def le64 : Platform := ⟨true, false⟩

/-- Little-endian 32-bit platform. -/
def le32 : Platform := ⟨false, false⟩

/-- Big-endian 64-bit platform. -/
def be64 : Platform := ⟨true, true⟩

/-- Big-endian 32-bit platform. -/
def be32 : Platform := ⟨false, true⟩

/-- Width of `std::size_t` on the platform. -/
def wordSize (p : Platform) : Nat := if p.is64 then 8 else 4

/-- Size of `DataChunkHeader`: the static asserts in `Data.cpp` pin it to
`16 + sizeof(std::size_t)`, i.e. 24 bytes on 64-bit and 20 bytes on 32-bit. -/
def headerSize (p : Platform) : Nat := 16 + wordSize p

/-- Modelled from the spec: Corrade's `Utility::Endianness::fourCC(a, b, c, d)`
(external dependency, not under `src/`) produces the `UnsignedInt` whose
in-memory byte order is `a, b, c, d` on the build platform, so its numeric
value places `a` at the least significant byte on little-endian platforms and
at the most significant byte on big-endian platforms.  This matches the test
corpus byte layouts in `DataTest.cpp`. -/
def fourCC (p : Platform) (a b c d : Nat) : Nat :=
  if p.bigEndian then d + 256 * (c + 256 * (b + 256 * a))
  else a + 256 * (b + 256 * (c + 256 * d))

/-- Numeric value of `DataChunkSignature::Current`: `fourCC` of the letters
`BlOB` / `BLOB` / `BOlB` / `BOLB` selected by bitness and endianness, exactly
as the `DataChunkSignature` enum in the header declares
(`B` = 66, `L` = 76, `l` = 108, `O` = 79). -/
def currentSignatureValue (p : Platform) : Nat :=
  if p.bigEndian then
    if p.is64 then fourCC p 66 79 76 66 else fourCC p 66 79 108 66
  else
    if p.is64 then fourCC p 66 76 79 66 else fourCC p 66 108 79 66

/-- Little-endian byte encoding of `v` into `w` bytes (least significant
first). -/
def encodeLE : Nat → Nat → List Nat
  | 0, _ => []
  | w + 1, v => v % 256 :: encodeLE w (v / 256)

/-- Native-endian byte encoding of `v` into `w` bytes: memory order of an
unsigned `w`-byte integer on platform `p`. -/
def encodeNat (p : Platform) (w v : Nat) : List Nat :=
  if p.bigEndian then (encodeLE w v).reverse else encodeLE w v

/-- Value of a little-endian byte list (least significant first). -/
def decodeLE (l : List Nat) : Nat := l.foldr (fun b acc => b + 256 * acc) 0

/-- Value of a native-endian byte list on platform `p`. -/
def decodeNat (p : Platform) (l : List Nat) : Nat :=
  if p.bigEndian then decodeLE l.reverse else decodeLE l

/-- Memory bytes of `DataChunkSignature::Current`. -/
def currentSignature (p : Platform) : List Nat :=
  encodeNat p 4 (currentSignatureValue p)

/-- The `DataChunkHeader` struct: `version:u8`, `eolUnix:u8[1]`,
`eolDos:u8[2]`, `signature:u32`, `zero:u16`, `extra:u16`, `type:u32`,
`size:size_t`, held as natural numbers. -/
structure DataChunkHeader where
  version : Nat
  eolUnix : Nat
  eolDos0 : Nat
  eolDos1 : Nat
  signature : Nat
  zero : Nat
  extra : Nat
  type : Nat
  size : Nat
  deriving DecidableEq

/-- In-memory byte image of a `DataChunkHeader` on platform `p`: the struct
has no padding (offsets 0, 1, 2, 4, 8, 10, 12, 16), multi-byte fields are
stored native-endian. -/
def headerBytes (p : Platform) (h : DataChunkHeader) : List Nat :=
  [h.version % 256, h.eolUnix % 256, h.eolDos0 % 256, h.eolDos1 % 256]
    ++ encodeNat p 4 h.signature ++ encodeNat p 2 h.zero
    ++ encodeNat p 2 h.extra ++ encodeNat p 4 h.type
    ++ encodeNat p (wordSize p) h.size

/-- The `DataChunkHeaderPrefix` reference constant from `Data.cpp`:
`{128, {0x0a}, {0x0d, 0x0a}, DataChunkSignature::Current, 0, 0,
DataChunkType{}, 0}`. -/
def refHeader (p : Platform) : DataChunkHeader :=
  ⟨128, 10, 13, 10, currentSignatureValue p, 0, 0, 0, 0⟩

/-- Byte image of the reference header constant. -/
def refHeaderBytes (p : Platform) : List Nat := headerBytes p (refHeader p)

/-- The `DataChunk(DataChunkType)` constructor: header initialised to
`{0, {0}, {0, 0}, DataChunkSignature{}, 0, 0, type, 0}` — all zeros except
the type field. -/
def liveChunk (t : Nat) : DataChunkHeader := ⟨0, 0, 0, 0, 0, 0, 0, t, 0⟩

/-- The header's declared `size` field as read from a buffer:
`reinterpret_cast<const DataChunkHeader*>(data.data())->size`, i.e. the
native-width, native-endian integer at byte offset 16. -/
def declaredSize (p : Platform) (data : List Nat) : Nat :=
  decodeNat p ((data.drop 16).take (wordSize p))

/-- The probe `DataChunk::isDataChunk`: the buffer is at least `sizeof(DataChunkHeader)`
long, its first 10 bytes equal the reference header's, and the declared size
is at most the buffer length.  (The C++ null-view check `data &&` is subsumed:
a null `ArrayView` has size 0 and already fails the length test.) -/
def isDataChunk (p : Platform) (data : List Nat) : Bool :=
  decide (headerSize p ≤ data.length) &&
  decide (data.take 10 = (refHeaderBytes p).take 10) &&
  decide (declaredSize p data ≤ data.length)

/-- The check `DataChunk::isDataChunkHeader`: `memcmp(this, &DataChunkHeaderPrefix, 10)
== 0` on the in-memory header. -/
def isDataChunkHeader (p : Platform) (h : DataChunkHeader) : Bool :=
  decide ((headerBytes p h).take 10 = (refHeaderBytes p).take 10)

/-- The distinct failure modes of `DataChunk::deserialize`, each carrying the
values its diagnostic message reports. -/
inductive DeserializeError where
  | tooShortForHeader (expected actual : Nat)
  | versionMismatch (expected actual : Nat)
  | signatureMismatch (expected actual : List Nat)
  | invalidCheckBytes
  | tooShortForChunk (expected actual : Nat)
  deriving DecidableEq

/-- The validator `DataChunk::deserialize`: the five checks in source order; on success the
returned value is the input buffer itself (the C++ function returns
`data.data()` reinterpreted, a view aliasing the input). -/
def deserialize (p : Platform) (data : List Nat) :
    Except DeserializeError (List Nat) :=
  if data.length < headerSize p then
    .error (.tooShortForHeader (headerSize p) data.length)
  else if data.getD 0 0 ≠ 128 then
    .error (.versionMismatch 128 (data.getD 0 0))
  else if (data.drop 4).take 4 ≠ currentSignature p then
    .error (.signatureMismatch (currentSignature p) ((data.drop 4).take 4))
  else if data.take 12 ≠ (refHeaderBytes p).take 12 then
    .error .invalidCheckBytes
  else if data.length < declaredSize p data then
    .error (.tooShortForChunk (declaredSize p data) data.length)
  else .ok data

/-- The failure mode of `DataChunk::serializeHeaderInto`, carrying the
required and actual sizes its assertion message reports. -/
inductive SerializeError where
  | bufferTooSmall (expected actual : Nat)
  deriving DecidableEq

/-- The writer `DataChunk::serializeHeaderInto`: if the output is shorter than the header
the assertion fires, nothing is written and the returned count is empty;
otherwise the reference header with `size = out.size()`, `type` from the
chunk and `extra` from the argument is written over the first
`sizeof(DataChunkHeader)` bytes and the byte count is returned.  The second
component is the resulting buffer contents. -/
def serializeHeaderInto (p : Platform) (c : DataChunkHeader) (out : List Nat)
    (extraArg : Nat) : Except SerializeError Nat × List Nat :=
  if out.length < headerSize p then
    (.error (.bufferTooSmall (headerSize p) out.length), out)
  else
    (.ok (headerSize p),
      headerBytes p
          { refHeader p with size := out.length, type := c.type, extra := extraArg }
        ++ out.drop (headerSize p))

/-- The predicate `std::isprint` in the C locale: the printable ASCII range 0x20 to 0x7e. -/
def isPrintable (c : Nat) : Bool := 32 ≤ c && c ≤ 126

/-- Modelled from the spec: `std::ostream` hexadecimal rendering of a small
pointer-cast value, `0x` followed by lowercase hex digits with no leading
zeros (Corrade `Debug` prints `reinterpret_cast<void*>` operands this way). -/
def hexRender (n : Nat) : String := "0x" ++ String.mk (Nat.toDigits 16 n)

/-- One byte of a FourCC as `printFourCC` renders it: a quoted character when
printable, the pointer-style hex form otherwise. -/
def fourCCItem (c : Nat) : String :=
  if isPrintable c then String.mk [Char.ofNat 39, Char.ofNat c, Char.ofNat 39]
  else hexRender c

/-- The static `printFourCC` helper of `Data.cpp`: the name, then the four
bytes of the value from least significant up, comma-joined, then `)`.  The
`Debug` space/nospace dance produces exactly `", "` between items. -/
def printFourCC (name : String) (value : Nat) : String :=
  name ++ fourCCItem (value % 256)
    ++ ", " ++ fourCCItem (value / 256 % 256)
    ++ ", " ++ fourCCItem (value / 65536 % 256)
    ++ ", " ++ fourCCItem (value / 16777216 % 256)
    ++ ")"

/-- The debug operator for `DataChunkType`. -/
def dataChunkTypeDebug (value : Nat) : String :=
  printFourCC ("Trade::DataChunkType(") value

/-- Modelled from the spec: `operator<<(Debug&, DataFlags)` delegates to
Corrade's `enumSetDebugOutput` (external dependency, not under `src/`), which
prints the names of the set flags in declaration order joined by `|`, and the
supplied empty-set string when no flag is set. -/
def dataFlagsDebug (owned mutableFlag : Bool) : String :=
  if owned || mutableFlag then
    String.intercalate ("|")
      ((if owned then ["Trade::DataFlag::Owned"] else []) ++
        (if mutableFlag then ["Trade::DataFlag::Mutable"] else []))
  else "Trade::DataFlags\x7b\x7d"

/-! ### Concrete buffers used by witnesses and counterexamples -/

/-- A 24-byte little-endian 64-bit buffer whose first 10 bytes match the
reference header and whose declared size is 24, but whose extra field
(bytes 10 and 11) is 1. -/
def nonzeroExtraBuf : List Nat :=
  [128, 10, 13, 10, 66, 76, 79, 66, 0, 0, 1, 0,
   0, 0, 0, 0, 24, 0, 0, 0, 0, 0, 0, 0]

/-- A 24-byte little-endian 64-bit buffer equal to the reference header image
except that the declared size is 24. -/
def zeroExtraBuf : List Nat :=
  [128, 10, 13, 10, 66, 76, 79, 66, 0, 0, 0, 0,
   0, 0, 0, 0, 24, 0, 0, 0, 0, 0, 0, 0]

/-- A 24-byte little-endian 64-bit buffer equal to the reference header image,
declared size 0. -/
def sizeZeroBuf : List Nat :=
  [128, 10, 13, 10, 66, 76, 79, 66, 0, 0, 0, 0,
   0, 0, 0, 0, 0, 0, 0, 0, 0, 0, 0, 0]

/-! ### Helper lemmas: byte encoding and header layout -/

theorem encodeLE_length (w v : Nat) : (encodeLE w v).length = w := by
  induction w generalizing v with
  | zero => rfl
  | succ w ih => simp [encodeLE, ih]

theorem encodeNat_length (p : Platform) (w v : Nat) :
    (encodeNat p w v).length = w := by
  unfold encodeNat; split <;> simp [encodeLE_length]

theorem decodeLE_encodeLE (w v : Nat) :
    decodeLE (encodeLE w v) = v % 256 ^ w := by
  induction w generalizing v with
  | zero => simp [encodeLE, decodeLE, Nat.mod_one]
  | succ w ih =>
    have hcons : decodeLE (v % 256 :: encodeLE w (v / 256)) =
        v % 256 + 256 * decodeLE (encodeLE w (v / 256)) := rfl
    rw [encodeLE, hcons, ih]
    rw [pow_succ, mul_comm (256 ^ w) 256, Nat.mod_mul]

theorem decodeNat_encodeNat (p : Platform) (w v : Nat) (h : v < 256 ^ w) :
    decodeNat p (encodeNat p w v) = v := by
  unfold decodeNat encodeNat
  split <;> simp [List.reverse_reverse, decodeLE_encodeLE, Nat.mod_eq_of_lt h]

theorem encodeNat_two_zero (p : Platform) : encodeNat p 2 0 = [0, 0] := by
  unfold encodeNat; split <;> rfl

theorem headerBytes_length (p : Platform) (h : DataChunkHeader) :
    (headerBytes p h).length = headerSize p := by
  simp [headerBytes, headerSize, encodeNat_length]
  omega

/-- The list `headerBytes` regrouped as (first 12 bytes) ++ (type bytes) ++ (size
bytes). -/
theorem headerBytes_regroup (p : Platform) (h : DataChunkHeader) :
    headerBytes p h =
      (([h.version % 256, h.eolUnix % 256, h.eolDos0 % 256, h.eolDos1 % 256]
          ++ encodeNat p 4 h.signature ++ encodeNat p 2 h.zero
          ++ encodeNat p 2 h.extra)
        ++ encodeNat p 4 h.type)
      ++ encodeNat p (wordSize p) h.size := by
  simp [headerBytes, List.append_assoc]

theorem headerBytes_take12 (p : Platform) (h : DataChunkHeader) :
    (headerBytes p h).take 12 =
      [h.version % 256, h.eolUnix % 256, h.eolDos0 % 256, h.eolDos1 % 256]
        ++ encodeNat p 4 h.signature ++ encodeNat p 2 h.zero
        ++ encodeNat p 2 h.extra := by
  rw [headerBytes_regroup, List.append_assoc, List.take_left']
  simp [encodeNat_length]

theorem headerBytes_drop12_take4 (p : Platform) (h : DataChunkHeader) :
    ((headerBytes p h).drop 12).take 4 = encodeNat p 4 h.type := by
  rw [headerBytes_regroup, List.append_assoc, List.drop_left']
  · rw [List.take_left' (encodeNat_length p 4 h.type)]
  · simp [encodeNat_length]

theorem headerBytes_drop16 (p : Platform) (h : DataChunkHeader) :
    (headerBytes p h).drop 16 = encodeNat p (wordSize p) h.size := by
  rw [headerBytes_regroup, List.drop_left']
  simp [encodeNat_length]

theorem refHeaderBytes_take12 (p : Platform) :
    (refHeaderBytes p).take 12 =
      [128, 10, 13, 10] ++ currentSignature p ++ [0, 0] ++ [0, 0] := by
  rw [refHeaderBytes, headerBytes_take12]
  simp [refHeader, currentSignature, encodeNat_two_zero]

theorem refHeaderBytes_take10 (p : Platform) :
    (refHeaderBytes p).take 10 =
      [128, 10, 13, 10] ++ currentSignature p ++ [0, 0] := by
  have hre : refHeaderBytes p =
      ([128, 10, 13, 10] ++ currentSignature p ++ [0, 0]) ++
        ([0, 0] ++ encodeNat p 4 0 ++ encodeNat p (wordSize p) 0) := by
    simp [refHeaderBytes, headerBytes, refHeader, currentSignature,
      encodeNat_two_zero, List.append_assoc]
  rw [hre, List.take_left' (by simp [currentSignature, encodeNat_length])]

theorem refHeaderBytes_take12_eq_take10 (p : Platform) :
    (refHeaderBytes p).take 12 = (refHeaderBytes p).take 10 ++ [0, 0] := by
  rw [refHeaderBytes_take12, refHeaderBytes_take10]

/-- Extracting an inner slice through a `take` that covers it. -/
theorem slice_of_take (l : List Nat) (m a b : Nat) (h : a + b ≤ m) :
    ((l.take m).drop a).take b = (l.drop a).take b := by
  rw [List.drop_take, List.take_take]
  congr 1
  omega

/-- A buffer whose first 12 bytes match the reference header starts with the
version byte 128. -/
theorem version_of_take12 (p : Platform) (data : List Nat)
    (h : data.take 12 = (refHeaderBytes p).take 12) :
    data.getD 0 0 = 128 := by
  rw [refHeaderBytes_take12] at h
  cases data with
  | nil => simp at h
  | cons a l =>
    simp only [List.take_succ_cons, List.cons_append] at h
    obtain ⟨rfl, -⟩ := List.cons.inj h
    rfl

/-- A buffer whose first 12 bytes match the reference header carries the
current signature at bytes 4 to 7. -/
theorem signature_of_take12 (p : Platform) (data : List Nat)
    (h : data.take 12 = (refHeaderBytes p).take 12) :
    (data.drop 4).take 4 = currentSignature p := by
  have hs : ((data.take 12).drop 4).take 4 = (data.drop 4).take 4 :=
    slice_of_take data 12 4 4 (by omega)
  rw [← hs, h, refHeaderBytes_take12]
  rw [show [(128 : Nat), 10, 13, 10] ++ currentSignature p ++ [0, 0] ++ [0, 0]
      = [128, 10, 13, 10] ++ (currentSignature p ++ ([0, 0] ++ [0, 0])) by
    simp [List.append_assoc]]
  rw [List.drop_left' (by rfl)]
  rw [List.take_left' (by simp [currentSignature, encodeNat_length])]

/-- A buffer whose first 12 bytes match the reference header has zero extra
bytes at offsets 10 and 11. -/
theorem extra_of_take12 (p : Platform) (data : List Nat)
    (h : data.take 12 = (refHeaderBytes p).take 12) :
    (data.drop 10).take 2 = [0, 0] := by
  have hs : ((data.take 12).drop 10).take 2 = (data.drop 10).take 2 :=
    slice_of_take data 12 10 2 (by omega)
  have hlen : ((refHeaderBytes p).take 10).length = 10 := by
    rw [refHeaderBytes_take10]; simp [currentSignature, encodeNat_length]
  rw [← hs, h, refHeaderBytes_take12_eq_take10, List.drop_left' hlen]
  rfl

/-- The head element seen through a `take` of positive length. -/
theorem getD0_take (l : List Nat) (n : Nat) (hn : 0 < n) :
    (l.take n).getD 0 0 = l.getD 0 0 := by
  cases l with
  | nil => simp
  | cons a t =>
    cases n with
    | zero => omega
    | succ m => simp

/-- A buffer whose first 12 bytes match the reference header also matches it
on the first 10 bytes. -/
theorem take10_of_take12 (p : Platform) (data : List Nat)
    (h : data.take 12 = (refHeaderBytes p).take 12) :
    data.take 10 = (refHeaderBytes p).take 10 := by
  have h1 : data.take 10 = (data.take 12).take 10 := by
    rw [List.take_take]; norm_num
  have hlen : ((refHeaderBytes p).take 10).length = 10 := by
    rw [refHeaderBytes_take10]; simp [currentSignature, encodeNat_length]
  rw [h1, h, refHeaderBytes_take12_eq_take10, List.take_left' hlen]

/-- Matching the reference on the first 10 bytes and having zero extra bytes
is the same as matching it on the first 12 bytes. -/
theorem take12_of_take10_extra (p : Platform) (data : List Nat)
    (h10 : data.take 10 = (refHeaderBytes p).take 10)
    (hx : (data.drop 10).take 2 = [0, 0]) :
    data.take 12 = (refHeaderBytes p).take 12 := by
  have ht := List.take_add data 10 2
  norm_num at ht
  rw [ht, h10, hx, refHeaderBytes_take12_eq_take10]

/-! ### Helper lemmas: deserialize and serialize characterisations -/

theorem deserialize_ok_of (p : Platform) (data : List Nat)
    (h1 : headerSize p ≤ data.length)
    (h2 : data.take 12 = (refHeaderBytes p).take 12)
    (h3 : declaredSize p data ≤ data.length) :
    deserialize p data = Except.ok data := by
  have hver := version_of_take12 p data h2
  have hsig := signature_of_take12 p data h2
  unfold deserialize
  rw [if_neg (by omega), if_neg (not_not_intro hver),
    if_neg (not_not_intro hsig), if_neg (not_not_intro h2), if_neg (by omega)]

theorem deserialize_ok_inv (p : Platform) (data v : List Nat)
    (h : deserialize p data = Except.ok v) :
    v = data ∧ headerSize p ≤ data.length ∧
      data.take 12 = (refHeaderBytes p).take 12 ∧
      declaredSize p data ≤ data.length := by
  unfold deserialize at h
  split_ifs at h with h1 h2 h3 h4 h5
  injection h with hv
  exact ⟨hv.symm, by omega, not_not.mp h4, by omega⟩

/-- Boolean characterisation of `isDataChunk`. -/
theorem isDataChunk_eq_true_iff_ref (p : Platform) (data : List Nat) :
    isDataChunk p data = true ↔
      headerSize p ≤ data.length ∧
      data.take 10 = (refHeaderBytes p).take 10 ∧
      declaredSize p data ≤ data.length := by
  simp [isDataChunk, and_assoc]

/-- The header record actually written by `serializeHeaderInto`. -/
theorem updatedHeader_eq (p : Platform) (t e s : Nat) :
    ({ refHeader p with size := s, type := t, extra := e } : DataChunkHeader) =
      ⟨128, 10, 13, 10, currentSignatureValue p, 0, e, t, s⟩ := rfl

theorem serializeHeaderInto_pos (p : Platform) (c : DataChunkHeader)
    (out : List Nat) (e : Nat) (h : headerSize p ≤ out.length) :
    serializeHeaderInto p c out e =
      (Except.ok (headerSize p),
        headerBytes p ⟨128, 10, 13, 10, currentSignatureValue p, 0, e,
            c.type, out.length⟩
          ++ out.drop (headerSize p)) := by
  unfold serializeHeaderInto
  rw [if_neg (by omega), updatedHeader_eq]

theorem headerApp_length (p : Platform) (h : DataChunkHeader)
    (rest : List Nat) :
    (headerBytes p h ++ rest).length = headerSize p + rest.length := by
  simp [headerBytes_length]

theorem headerApp_take12 (p : Platform) (h : DataChunkHeader)
    (rest : List Nat) :
    (headerBytes p h ++ rest).take 12 = (headerBytes p h).take 12 :=
  List.take_append_of_le_length
    (by rw [headerBytes_length]; unfold headerSize; omega)

theorem headerApp_drop12_take4 (p : Platform) (h : DataChunkHeader)
    (rest : List Nat) :
    ((headerBytes p h ++ rest).drop 12).take 4 = encodeNat p 4 h.type := by
  rw [List.drop_append_of_le_length
    (by rw [headerBytes_length]; unfold headerSize; omega)]
  rw [List.take_append_of_le_length
    (by rw [List.length_drop, headerBytes_length]; unfold headerSize; omega)]
  exact headerBytes_drop12_take4 p h

theorem headerApp_drop16_takeW (p : Platform) (h : DataChunkHeader)
    (rest : List Nat) :
    ((headerBytes p h ++ rest).drop 16).take (wordSize p) =
      encodeNat p (wordSize p) h.size := by
  rw [List.drop_append_of_le_length
    (by rw [headerBytes_length]; unfold headerSize; omega)]
  rw [headerBytes_drop16,
    List.take_append_of_le_length (by simp [encodeNat_length])]
  exact List.take_of_length_le (by simp [encodeNat_length])

theorem headerApp_dropHS (p : Platform) (h : DataChunkHeader)
    (rest : List Nat) :
    (headerBytes p h ++ rest).drop (headerSize p) = rest :=
  List.drop_left' (headerBytes_length p h)

/-- First 12 bytes of a written header: the canonical 10-byte magic plus the
caller's extra field. -/
theorem writtenHeader_take12 (p : Platform) (t e s : Nat) :
    (headerBytes p
        (⟨128, 10, 13, 10, currentSignatureValue p, 0, e, t, s⟩ :
          DataChunkHeader)).take 12 =
      [128, 10, 13, 10] ++ currentSignature p ++ [0, 0] ++ encodeNat p 2 e := by
  rw [headerBytes_take12]
  simp [currentSignature, encodeNat_two_zero]

/-! ### Claim theorems -/

/-- Claim C1, counterexample: the round-trip as stated fails for a nonzero
extra value.  Serializing a header with extra = 1 (type 0, payload length 0,
little-endian 64-bit) succeeds, but deserializing the resulting buffer does
not succeed with the written type and size — it fails with the
invalid-check-bytes error, because the check-bytes comparison covers the
extra field. -/
theorem roundtrip_any_extra_fails :
    (serializeHeaderInto le64 (liveChunk 0) (List.replicate 24 0) 1).1 =
      Except.ok 24 ∧
    deserialize le64
        (serializeHeaderInto le64 (liveChunk 0) (List.replicate 24 0) 1).2 =
      Except.error DeserializeError.invalidCheckBytes :=
  ⟨rfl, rfl⟩

/-- Claim C1, amended: for every platform, payload length L, 4-byte type tag
T and buffer of size header_size + L, serializing a header with extra = 0 and
deserializing the result succeeds and yields a chunk whose type equals T and
whose declared size equals header_size + L.  (The counterexample forces
extra = 0; every other part of the claim is unchanged.) -/
theorem roundtrip_zero_extra (p : Platform) (L T : Nat) (buf : List Nat)
    (hbuf : buf.length = headerSize p + L) (hT : T < 2 ^ 32)
    (hsz : headerSize p + L < 2 ^ (8 * wordSize p)) :
    (serializeHeaderInto p (liveChunk T) buf 0).1 = Except.ok (headerSize p) ∧
    deserialize p (serializeHeaderInto p (liveChunk T) buf 0).2 =
      Except.ok (serializeHeaderInto p (liveChunk T) buf 0).2 ∧
    decodeNat p
        (((serializeHeaderInto p (liveChunk T) buf 0).2.drop 12).take 4) = T ∧
    declaredSize p (serializeHeaderInto p (liveChunk T) buf 0).2 =
      headerSize p + L := by
  have h : headerSize p ≤ buf.length := by omega
  have hpos := serializeHeaderInto_pos p (liveChunk T) buf 0 h
  have h256 : (256 : Nat) ^ wordSize p = 2 ^ (8 * wordSize p) := by
    rw [pow_mul]; norm_num
  have htk12 : (serializeHeaderInto p (liveChunk T) buf 0).2.take 12 =
      (refHeaderBytes p).take 12 := by
    rw [hpos, headerApp_take12, writtenHeader_take12, encodeNat_two_zero,
      refHeaderBytes_take12]
  have hdecl : declaredSize p (serializeHeaderInto p (liveChunk T) buf 0).2 =
      headerSize p + L := by
    rw [hpos]
    unfold declaredSize
    rw [headerApp_drop16_takeW]
    show decodeNat p (encodeNat p (wordSize p) buf.length) = headerSize p + L
    rw [decodeNat_encodeNat p (wordSize p) buf.length (by omega), hbuf]
  have hlen : (serializeHeaderInto p (liveChunk T) buf 0).2.length =
      headerSize p + L := by
    rw [hpos, headerApp_length, List.length_drop]
    omega
  refine ⟨by rw [hpos], ?_, ?_, hdecl⟩
  · exact deserialize_ok_of p _ (by omega) htk12 (by omega)
  · rw [hpos, headerApp_drop12_take4]
    show decodeNat p (encodeNat p 4 T) = T
    exact decodeNat_encodeNat p 4 T (by norm_num at hT ⊢; omega)

/-- Claim C1 witness for the amended round-trip: the concrete scenario of the
spec (type fourCC F, F, s, 42 and a 5-byte payload) on the little-endian
64-bit platform. -/
theorem roundtrip_zero_extra_witness :
    (serializeHeaderInto le64 (liveChunk (fourCC le64 70 70 115 42))
        (List.replicate 29 0) 0).1 = Except.ok (headerSize le64) ∧
    deserialize le64 (serializeHeaderInto le64
        (liveChunk (fourCC le64 70 70 115 42)) (List.replicate 29 0) 0).2 =
      Except.ok (serializeHeaderInto le64
        (liveChunk (fourCC le64 70 70 115 42)) (List.replicate 29 0) 0).2 ∧
    decodeNat le64 (((serializeHeaderInto le64
        (liveChunk (fourCC le64 70 70 115 42))
        (List.replicate 29 0) 0).2.drop 12).take 4) =
      fourCC le64 70 70 115 42 ∧
    declaredSize le64 (serializeHeaderInto le64
        (liveChunk (fourCC le64 70 70 115 42)) (List.replicate 29 0) 0).2 =
      headerSize le64 + 5 :=
  roundtrip_zero_extra le64 5 (fourCC le64 70 70 115 42)
    (List.replicate 29 0) (by decide) (by decide) (by decide)

/-- Claim C2: a buffer of at least header size whose version byte is 128 and
whose signature matches the current platform but whose extra bytes (offsets
10 and 11) are nonzero is rejected with the invalid-check-bytes error, and
every buffer `deserialize` accepts has zero extra bytes. -/
theorem deserialize_requires_zero_extra (p : Platform) (data : List Nat) :
    (headerSize p ≤ data.length → data.getD 0 0 = 128 →
      (data.drop 4).take 4 = currentSignature p →
      (data.drop 10).take 2 ≠ [0, 0] →
      deserialize p data = Except.error DeserializeError.invalidCheckBytes) ∧
    (∀ v, deserialize p data = Except.ok v →
      (data.drop 10).take 2 = [0, 0]) := by
  constructor
  · intro h1 hver hsig hx
    have hc : data.take 12 ≠ (refHeaderBytes p).take 12 := fun h12 =>
      hx (extra_of_take12 p data h12)
    unfold deserialize
    rw [if_neg (by omega), if_neg (not_not_intro hver),
      if_neg (not_not_intro hsig), if_pos hc]
  · intro v hv
    exact extra_of_take12 p data (deserialize_ok_inv p data v hv).2.2.1

/-- Claim C2 witness: a concrete 24-byte buffer with valid magic and
signature but extra = 1 is rejected with the invalid-check-bytes error. -/
theorem deserialize_requires_zero_extra_witness :
    deserialize le64 nonzeroExtraBuf =
      Except.error DeserializeError.invalidCheckBytes :=
  (deserialize_requires_zero_extra le64 nonzeroExtraBuf).1
    (by decide) (by decide) (by decide) (by decide)

/-- Claim C3: `deserialize` validates in the fixed source order with a
distinct error per stage — too-short-for-header, version mismatch (reporting
128 and the actual byte), signature mismatch (reporting both signatures),
invalid check bytes, too-short-for-chunk (reporting declared and actual
sizes) — and otherwise succeeds returning a view over the input buffer. -/
theorem deserialize_validation_order (p : Platform) (data : List Nat) :
    (data.length < headerSize p →
      deserialize p data = Except.error
        (DeserializeError.tooShortForHeader (headerSize p) data.length)) ∧
    (headerSize p ≤ data.length → data.getD 0 0 ≠ 128 →
      deserialize p data = Except.error
        (DeserializeError.versionMismatch 128 (data.getD 0 0))) ∧
    (headerSize p ≤ data.length → data.getD 0 0 = 128 →
      (data.drop 4).take 4 ≠ currentSignature p →
      deserialize p data = Except.error
        (DeserializeError.signatureMismatch (currentSignature p)
          ((data.drop 4).take 4))) ∧
    (headerSize p ≤ data.length → data.getD 0 0 = 128 →
      (data.drop 4).take 4 = currentSignature p →
      data.take 12 ≠ (refHeaderBytes p).take 12 →
      deserialize p data =
        Except.error DeserializeError.invalidCheckBytes) ∧
    (headerSize p ≤ data.length →
      data.take 12 = (refHeaderBytes p).take 12 →
      data.length < declaredSize p data →
      deserialize p data = Except.error
        (DeserializeError.tooShortForChunk (declaredSize p data)
          data.length)) ∧
    (headerSize p ≤ data.length →
      data.take 12 = (refHeaderBytes p).take 12 →
      declaredSize p data ≤ data.length →
      deserialize p data = Except.ok data) := by
  refine ⟨?_, ?_, ?_, ?_, ?_, ?_⟩
  · intro h1
    unfold deserialize
    rw [if_pos h1]
  · intro h1 hver
    unfold deserialize
    rw [if_neg (by omega), if_pos hver]
  · intro h1 hver hsig
    unfold deserialize
    rw [if_neg (by omega), if_neg (not_not_intro hver), if_pos hsig]
  · intro h1 hver hsig hc
    unfold deserialize
    rw [if_neg (by omega), if_neg (not_not_intro hver),
      if_neg (not_not_intro hsig), if_pos hc]
  · intro h1 h12 hlt
    have hver := version_of_take12 p data h12
    have hsig := signature_of_take12 p data h12
    unfold deserialize
    rw [if_neg (by omega), if_neg (not_not_intro hver),
      if_neg (not_not_intro hsig), if_neg (not_not_intro h12), if_pos hlt]
  · intro h1 h12 hle
    exact deserialize_ok_of p data h1 h12 hle

/-- Claim C3 witness: the empty buffer is rejected at the first stage with
the too-short-for-header error reporting the required and actual sizes. -/
theorem deserialize_validation_order_witness :
    deserialize le64 [] =
      Except.error (DeserializeError.tooShortForHeader 24 0) :=
  (deserialize_validation_order le64 []).1 (by decide)

/-- Claim C4, counterexample: `isDataChunk` has a false positive.  A 24-byte
buffer with valid first 10 bytes, declared size 24, but extra = 1 satisfies
`isDataChunk`, yet `deserialize` rejects it with the invalid-check-bytes
error — so probing and deserialization do not agree on every input. -/
theorem probe_false_positive :
    isDataChunk le64 nonzeroExtraBuf = true ∧
    deserialize le64 nonzeroExtraBuf =
      Except.error DeserializeError.invalidCheckBytes :=
  ⟨rfl, rfl⟩

/-- Claim C4, amended: deserialization success always implies a positive
probe (no false negatives), and on every buffer whose extra bytes (offsets
10 and 11) are zero the probe and deserialization agree exactly; the
counterexample shows the equivalence cannot extend to buffers with nonzero
extra bytes. -/
theorem probe_agreement (p : Platform) (data : List Nat) :
    (∀ v, deserialize p data = Except.ok v → isDataChunk p data = true) ∧
    ((data.drop 10).take 2 = [0, 0] →
      (isDataChunk p data = true ↔ deserialize p data = Except.ok data)) := by
  constructor
  · intro v hv
    obtain ⟨-, hlen, h12, hdecl⟩ := deserialize_ok_inv p data v hv
    exact (isDataChunk_eq_true_iff_ref p data).mpr
      ⟨hlen, take10_of_take12 p data h12, hdecl⟩
  · intro hx
    constructor
    · intro hprobe
      obtain ⟨hlen, h10, hdecl⟩ :=
        (isDataChunk_eq_true_iff_ref p data).mp hprobe
      exact deserialize_ok_of p data hlen
        (take12_of_take10_extra p data h10 hx) hdecl
    · intro hok
      obtain ⟨-, hlen, h12, hdecl⟩ := deserialize_ok_inv p data data hok
      exact (isDataChunk_eq_true_iff_ref p data).mpr
        ⟨hlen, take10_of_take12 p data h12, hdecl⟩

/-- Claim C4 witness: on a concrete zero-extra buffer the probe and
deserialization agree. -/
theorem probe_agreement_witness :
    isDataChunk le64 zeroExtraBuf = true ↔
      deserialize le64 zeroExtraBuf = Except.ok zeroExtraBuf :=
  (probe_agreement le64 zeroExtraBuf).2 (by decide)

/-- Claim C5: `isDataChunk` returns true exactly when the buffer is at least
header-sized, its first 10 bytes are the canonical prefix (version 128, Unix
EOL, DOS EOL, current signature, two zero bytes) and the declared size read
with native width and endianness is at most the buffer length. -/
theorem isDataChunk_characterisation (p : Platform) (data : List Nat) :
    isDataChunk p data = true ↔
      headerSize p ≤ data.length ∧
      data.take 10 = [128, 10, 13, 10] ++ currentSignature p ++ [0, 0] ∧
      declaredSize p data ≤ data.length := by
  rw [isDataChunk_eq_true_iff_ref, refHeaderBytes_take10]

/-- Claim C6: on a buffer of at least header size, `serializeHeaderInto`
returns exactly header_size and produces the canonical 10-byte magic, the
extra bytes, the chunk type captured at construction, the size field equal
to the whole output buffer's length, followed by the untouched tail of the
buffer. -/
theorem serializeHeaderInto_writes (p : Platform) (c : DataChunkHeader)
    (out : List Nat) (e : Nat) (h : headerSize p ≤ out.length) :
    serializeHeaderInto p c out e =
      (Except.ok (headerSize p),
        ([128, 10, 13, 10] ++ currentSignature p ++ [0, 0])
          ++ encodeNat p 2 e ++ encodeNat p 4 c.type
          ++ encodeNat p (wordSize p) out.length
          ++ out.drop (headerSize p)) := by
  rw [serializeHeaderInto_pos p c out e h]
  unfold headerBytes
  simp [currentSignature, encodeNat_two_zero, List.append_assoc]

/-- Claim C6 witness: a concrete 24-byte buffer on the little-endian 64-bit
platform with extra = 0xfeed and type fourCC f, f, S, 42 (the test
scenario). -/
theorem serializeHeaderInto_writes_witness :
    serializeHeaderInto le64 (liveChunk (fourCC le64 102 102 83 42))
        (List.replicate 24 7) 65261 =
      (Except.ok (headerSize le64),
        ([128, 10, 13, 10] ++ currentSignature le64 ++ [0, 0])
          ++ encodeNat le64 2 65261
          ++ encodeNat le64 4 (liveChunk (fourCC le64 102 102 83 42)).type
          ++ encodeNat le64 (wordSize le64) (List.replicate 24 7).length
          ++ (List.replicate 24 7).drop (headerSize le64)) :=
  serializeHeaderInto_writes le64 (liveChunk (fourCC le64 102 102 83 42))
    (List.replicate 24 7) 65261 (by decide)

/-- Claim C7: on a buffer strictly shorter than header size,
`serializeHeaderInto` reports the buffer-too-small error with the required
and actual sizes and leaves the buffer exactly as it was. -/
theorem serializeHeaderInto_too_small (p : Platform) (c : DataChunkHeader)
    (out : List Nat) (e : Nat) (h : out.length < headerSize p) :
    serializeHeaderInto p c out e =
      (Except.error (SerializeError.bufferTooSmall (headerSize p) out.length),
        out) := by
  unfold serializeHeaderInto
  rw [if_pos h]

/-- Claim C7 witness: a 23-byte buffer on the little-endian 64-bit platform
(one byte short of the 24-byte header) is rejected and untouched. -/
theorem serializeHeaderInto_too_small_witness :
    serializeHeaderInto le64 (liveChunk 0) (List.replicate 23 5) 0 =
      (Except.error (SerializeError.bufferTooSmall 24 23),
        List.replicate 23 5) :=
  serializeHeaderInto_too_small le64 (liveChunk 0) (List.replicate 23 5) 0
    (by decide)

/-- Claim C8: a freshly constructed chunk has every header field zero except
the type field, which holds the constructor argument, and it fails both
validity checks: `isDataChunkHeader` on the live header and `isDataChunk`
over its byte image are false. -/
theorem liveChunk_invalid (p : Platform) (T : Nat) :
    (liveChunk T).version = 0 ∧ (liveChunk T).eolUnix = 0 ∧
    (liveChunk T).eolDos0 = 0 ∧ (liveChunk T).eolDos1 = 0 ∧
    (liveChunk T).signature = 0 ∧ (liveChunk T).zero = 0 ∧
    (liveChunk T).extra = 0 ∧ (liveChunk T).size = 0 ∧
    (liveChunk T).type = T ∧
    isDataChunkHeader p (liveChunk T) = false ∧
    isDataChunk p (headerBytes p (liveChunk T)) = false := by
  have hne : (headerBytes p (liveChunk T)).take 10 ≠
      (refHeaderBytes p).take 10 := by
    intro hEq
    have h0 := congrArg (fun l => l.getD 0 0) hEq
    simp only at h0
    rw [getD0_take _ 10 (by omega), getD0_take _ 10 (by omega)] at h0
    have hl : (headerBytes p (liveChunk T)).getD 0 0 = 0 := by
      simp [headerBytes, liveChunk]
    have hr : (refHeaderBytes p).getD 0 0 = 128 := by
      simp [refHeaderBytes, headerBytes, refHeader]
    rw [hl, hr] at h0
    exact absurd h0 (by omega)
  refine ⟨rfl, rfl, rfl, rfl, rfl, rfl, rfl, rfl, rfl, ?_, ?_⟩
  · have : ¬ ((headerBytes p (liveChunk T)).take 10 =
        (refHeaderBytes p).take 10) := hne
    simp [isDataChunkHeader, this]
  · have hnt : isDataChunk p (headerBytes p (liveChunk T)) ≠ true := by
      intro htrue
      obtain ⟨-, h10, -⟩ := (isDataChunk_eq_true_iff_ref p _).mp htrue
      exact hne h10
    simpa using hnt

/-- Claim C9: `deserialize` imposes no lower bound on the declared size
field: any buffer of at least header size whose first 12 bytes match the
reference and whose declared size is at most the buffer length — including a
declared size of 0 or any value below header size — deserializes
successfully. -/
theorem deserialize_no_minimum_declared_size (p : Platform)
    (data : List Nat) (h1 : headerSize p ≤ data.length)
    (h2 : data.take 12 = (refHeaderBytes p).take 12)
    (h3 : declaredSize p data ≤ data.length) :
    deserialize p data = Except.ok data :=
  deserialize_ok_of p data h1 h2 h3

/-- Claim C9 witness: a 24-byte buffer whose declared size field is 0 —
smaller than the header itself — still deserializes successfully. -/
theorem deserialize_no_minimum_declared_size_witness :
    declaredSize le64 sizeZeroBuf = 0 ∧
    deserialize le64 sizeZeroBuf = Except.ok sizeZeroBuf :=
  ⟨rfl, deserialize_no_minimum_declared_size le64 sizeZeroBuf
    (by decide) (by decide) (by decide)⟩

/-- Claim C10: the diagnostic renderings — the Owned and Mutable flag set
prints the two names joined by a bar, the empty flag set prints the explicit
empty token, and the FourCC tag M, s, h, 0xab prints each printable byte as
a quoted character and the non-printable byte in numeric form, in order. -/
theorem debug_rendering (p : Platform) (hLE : p.bigEndian = false) :
    dataFlagsDebug true true =
      "Trade::DataFlag::Owned|Trade::DataFlag::Mutable" ∧
    dataFlagsDebug false false = "Trade::DataFlags\x7b\x7d" ∧
    dataChunkTypeDebug (fourCC p 77 115 104 171) =
      "Trade::DataChunkType(\x27M\x27, \x27s\x27, \x27h\x27, 0xab)" := by
  refine ⟨rfl, rfl, ?_⟩
  have hv : fourCC p 77 115 104 171 =
      77 + 256 * (115 + 256 * (104 + 256 * 171)) := by
    simp [fourCC, hLE]
  rw [hv]
  rfl

/-- Claim C10 witness: the FourCC rendering on the little-endian 64-bit
platform. -/
theorem debug_rendering_witness :
    dataChunkTypeDebug (fourCC le64 77 115 104 171) =
      "Trade::DataChunkType(\x27M\x27, \x27s\x27, \x27h\x27, 0xab)" :=
  (debug_rendering le64 rfl).2.2

